import Mathlib

/-!
Verification of the `boat_plan` repository (Rust): a naval-architecture
calculator.  The sources `src/si.rs` and `src/boat.rs` are embedded
shallowly.  Rust `f64` values are modelled exactly by the inductive type
`F64` below: a finite double is represented by its exact rational value,
and every arithmetic operation rounds its exact rational result to the
nearest representable double (round-to-nearest, ties to even, subnormal
granularity below `2^-1022`, overflow to infinity), exactly as IEEE-754
binary64 prescribes.  Negative zero is not distinguished from zero (no
claim in scope depends on the sign of zero).  The library calls
`f64::powf(x, 3.0)` and `f64::powf(x, 2.0/3.0)` are modelled as the
correctly rounded real functions `x^3` and `x^(2/3)`.

Rationals are carried by the explicit fraction type `Q` (an integer
numerator and a positive integer denominator, reduced only when a rounded
double is produced) rather than Mathlib's `ℚ`, so that every arithmetic
step evaluates by plain kernel reduction; `Q.toRat` interprets a fraction
as a rational number.
-/

namespace BoatPlan

/-- An exact fraction `num / den`.  All operations below keep `den`
positive; `Q.norm` reduces a fraction to lowest terms. -/
structure Q where
  num : ℤ
  den : ℤ
deriving DecidableEq

instance : OfNat Q n := ⟨⟨n, 1⟩⟩

/-- Decimal literals: `m.eEx` denotes `m / 10^x` (or `m * 10^x`). -/
instance : OfScientific Q :=
  ⟨fun m s e => if s then ⟨(m : ℤ), (10 ^ e : ℕ)⟩ else ⟨(m : ℤ) * (10 ^ e : ℕ), 1⟩⟩

/-- The rational number denoted by a fraction. -/
def Q.toRat (a : Q) : ℚ := (a.num : ℚ) / (a.den : ℚ)

/-- Exact addition of fractions. -/
def Q.add (a b : Q) : Q := ⟨a.num * b.den + b.num * a.den, a.den * b.den⟩

/-- Exact negation of a fraction. -/
def Q.neg (a : Q) : Q := ⟨-a.num, a.den⟩

/-- Exact subtraction of fractions. -/
def Q.sub (a b : Q) : Q := a.add b.neg

/-- Exact multiplication of fractions. -/
def Q.mul (a b : Q) : Q := ⟨a.num * b.num, a.den * b.den⟩

/-- Exact division of fractions (the sign moves to the numerator so the
denominator stays positive; division by zero gives a zero denominator and
is always guarded by the callers). -/
def Q.div (a b : Q) : Q :=
  if b.num < 0 then ⟨-(a.num * b.den), -(a.den * b.num)⟩
  else ⟨a.num * b.den, a.den * b.num⟩

/-- Exact `n`-th power of a fraction. -/
def Q.pow (a : Q) (n : ℕ) : Q := ⟨a.num ^ n, a.den ^ n⟩

/-- Comparison `a ≤ b` by cross multiplication (dens are positive). -/
def Q.le (a b : Q) : Bool := decide (a.num * b.den ≤ b.num * a.den)

/-- Comparison `a < b` by cross multiplication (dens are positive). -/
def Q.lt (a b : Q) : Bool := decide (a.num * b.den < b.num * a.den)

/-- Semantic equality of fractions by cross multiplication. -/
def Q.eq (a b : Q) : Bool := decide (a.num * b.den = b.num * a.den)

/-- Floor of a fraction (the denominator is positive). -/
def Q.floor (a : Q) : ℤ := a.num.fdiv a.den

/-- Reduce a fraction to lowest terms with a positive denominator. -/
def Q.norm (a : Q) : Q :=
  let n := if a.den < 0 then -a.num else a.num
  let d := if a.den < 0 then -a.den else a.den
  let g : ℤ := (n.gcd d : ℕ)
  if g = 0 then ⟨0, 1⟩ else ⟨n / g, d / g⟩

/-- The fraction `2^k` for an integer `k` (written with a shift so that it
evaluates by native binary arithmetic). -/
def pow2 (k : ℤ) : Q :=
  if 0 ≤ k then ⟨(1 <<< k.toNat : ℕ), 1⟩ else ⟨1, (1 <<< (-k).toNat : ℕ)⟩

/-- Binary search with fuel: the largest `x` in `[lo, hi]` satisfying the
(downward-monotone) predicate `P`, assuming `P lo` holds. -/
def bsearchInt (P : ℤ → Bool) : ℤ → ℤ → ℕ → ℤ
  | lo, _, 0 => lo
  | lo, hi, fuel + 1 =>
    if hi ≤ lo then lo
    else
      let mid := lo + (((hi - lo + 1).toNat / 2 : ℕ) : ℤ)
      if P mid then bsearchInt P mid hi fuel else bsearchInt P lo (mid - 1) fuel

/-- Floor base-2 logarithm of a positive natural, by binary search (so that
it evaluates by shallow reduction; correct for `n < 2^8200`). -/
def natLog2 (n : ℕ) : ℕ :=
  (bsearchInt (fun k => decide ((1 <<< k.toNat : ℕ) ≤ n)) 0 8200 25).toNat

/-- Round a fraction to the nearest integer, ties to even. -/
def rne (q : Q) : ℤ :=
  let f := q.floor
  let r := q.sub ⟨f, 1⟩
  if r.lt ⟨1, 2⟩ then f
  else if Q.lt ⟨1, 2⟩ r then f + 1
  else if f % 2 = 0 then f else f + 1

/-- Floor of the base-2 logarithm of a positive fraction. -/
def qFloorLog2 (q : Q) : ℤ :=
  let n := q.num.natAbs
  let d := q.den.natAbs
  let k : ℤ := (natLog2 n : ℤ) - (natLog2 d : ℤ)
  if (pow2 k).le q then k else k - 1

/-- Model of a Rust `f64` value: NaN, a signed infinity (`neg = true` is
negative infinity), or a finite value given by its exact rational value. -/
inductive F64 where
  | nan : F64
  | inf (neg : Bool) : F64
  | fin (q : Q) : F64
deriving DecidableEq

/-- Round an exact fraction to the nearest IEEE-754 binary64 value:
round-to-nearest ties-to-even at the precision of the binade of the
argument (with subnormal granularity `2^-1074` below the normal range),
overflowing to infinity at `2^1024`. -/
def roundF (q : Q) : F64 :=
  if q.num = 0 then .fin 0
  else
    let neg := decide (q.num < 0)
    let a : Q := ⟨if q.num < 0 then -q.num else q.num, q.den⟩
    let e := qFloorLog2 a
    let sh := max (e - 52) (-1074)
    let m := rne (a.div (pow2 sh))
    let r := (Q.mk m 1).mul (pow2 sh)
    if (pow2 1024).le r then .inf neg
    else .fin (Q.norm (if neg then r.neg else r))

/-- A Rust `f64` literal: the decimal literal rounds to the nearest double. -/
def f64lit (q : Q) : F64 := roundF q

/-- IEEE-754 `<=` on doubles: any comparison with NaN is false. -/
def F64.le : F64 → F64 → Bool
  | .nan, _ => false
  | _, .nan => false
  | .inf s, .inf t => s || !t
  | .inf s, .fin _ => s
  | .fin _, .inf t => !t
  | .fin a, .fin b => a.le b

/-- IEEE-754 `<` on doubles: any comparison with NaN is false. -/
def F64.lt : F64 → F64 → Bool
  | .nan, _ => false
  | _, .nan => false
  | .inf s, .inf t => s && !t
  | .inf s, .fin _ => s
  | .fin _, .inf t => !t
  | .fin a, .fin b => a.lt b

/-- IEEE-754 addition on doubles. -/
def F64.add : F64 → F64 → F64
  | .nan, _ => .nan
  | _, .nan => .nan
  | .inf s, .inf t => if s = t then .inf s else .nan
  | .inf s, .fin _ => .inf s
  | .fin _, .inf t => .inf t
  | .fin a, .fin b => roundF (a.add b)

/-- IEEE-754 multiplication on doubles. -/
def F64.mul : F64 → F64 → F64
  | .nan, _ => .nan
  | _, .nan => .nan
  | .inf s, .inf t => .inf (xor s t)
  | .inf s, .fin b => if b.num = 0 then .nan else .inf (xor s (decide (b.num < 0)))
  | .fin a, .inf t => if a.num = 0 then .nan else .inf (xor t (decide (a.num < 0)))
  | .fin a, .fin b => roundF (a.mul b)

/-- IEEE-754 division on doubles: a nonzero finite value divided by zero
gives a signed infinity, `0 / 0` gives NaN. -/
def F64.div : F64 → F64 → F64
  | .nan, _ => .nan
  | _, .nan => .nan
  | .inf _, .inf _ => .nan
  | .inf s, .fin b => .inf (xor s (decide (b.num < 0)))
  | .fin _, .inf _ => .fin 0
  | .fin a, .fin b =>
    if b.num = 0 then (if a.num = 0 then .nan else .inf (decide (a.num < 0)))
    else roundF (a.div b)

/-- Rust `f64::round`: round half away from zero (NaN and infinities are
returned unchanged). -/
def F64.round : F64 → F64
  | .nan => .nan
  | .inf s => .inf s
  | .fin q =>
    .fin (if 0 ≤ q.num then ⟨(q.add ⟨1, 2⟩).floor, 1⟩
          else ⟨-((q.neg.add ⟨1, 2⟩).floor), 1⟩)

/-- The IEEE-754 double nearest to `q^(2/3)` for a positive fraction `q`
(the correctly rounded real cube root of the square).  The comparisons
`c ≤ q^(2/3)` are decided exactly as `c^3 ≤ q^2`. -/
def roundPow23 (q : Q) : F64 :=
  let q2 := q.pow 2
  let e := bsearchInt (fun k => (pow2 (3 * k)).le q2) (-1100) 1100 25
  let t := max (e - 52) (-1074)
  let c := pow2 (3 * t)
  let lo : ℤ := if t = e - 52 then 2 ^ 52 else 0
  let m := bsearchInt (fun m => ((Q.mk m 1).pow 3 |>.mul c).le q2) lo (2 ^ 53) 60
  let mid := (Q.mk (2 * m + 1) 1).pow 3 |>.mul (pow2 (3 * t - 3))
  let m2 := if mid.lt q2 || (mid.eq q2 && decide (m % 2 = 1)) then m + 1 else m
  let r := (Q.mk m2 1).mul (pow2 t)
  if (pow2 1024).le r then F64.inf false else F64.fin (Q.norm r)

/-- Model of Rust `f64::powf(x, 3.0)`: the correctly rounded cube.
`powf(±0, 3.0) = 0`, `powf(±∞, 3.0) = ±∞` (3.0 is an odd integer). -/
def F64.pow3 : F64 → F64
  | .nan => .nan
  | .inf s => .inf s
  | .fin a => if a.num = 0 then .fin 0 else roundF (a.pow 3)

/-- Model of Rust `f64::powf(x, 2.0/3.0)`: the correctly rounded real
`x^(2/3)`.  `powf(0, y) = 0` for positive `y`; a negative finite base with
a non-integer exponent gives NaN; `powf(±∞, y) = +∞` for positive
non-odd-integer `y`. -/
def F64.pow23 : F64 → F64
  | .nan => .nan
  | .inf _ => .inf false
  | .fin a =>
    if a.num = 0 then .fin 0
    else if a.num < 0 then .nan
    else roundPow23 a

/-! Embedding of `src/si.rs`: the `Length` and `Weight` quantity types.
Each stores one canonical `f64` magnitude (meter, kilogram). -/

/-- `si.rs`: `pub struct Length { val: f64 }` (meters). -/
structure Length where
  val : F64
deriving DecidableEq

/-- `si.rs`: `Length::from_meter(val) = Length { val }`. -/
def Length.from_meter (val : F64) : Length := ⟨val⟩

/-- `si.rs`: `Length::to_meter(&self) = self.val`. -/
def Length.to_meter (l : Length) : F64 := l.val

/-- `si.rs`: `Length::from_millimeter(val) = Length { val: val / 1000.0 }`. -/
def Length.from_millimeter (val : F64) : Length := ⟨val.div (f64lit 1000)⟩

/-- `si.rs`: `Length::to_millimiter(&self) = self.val * 1000.0`. -/
def Length.to_millimiter (l : Length) : F64 := l.val.mul (f64lit 1000)

/-- `si.rs`: `Length::from_inch(val) = Length { val: val * 25.4 / 1000.0 }`. -/
def Length.from_inch (val : F64) : Length := ⟨(val.mul (f64lit 25.4)).div (f64lit 1000)⟩

/-- `si.rs`: `Length::to_inch(&self) = self.val * 1000.0 / 25.4`. -/
def Length.to_inch (l : Length) : F64 := (l.val.mul (f64lit 1000)).div (f64lit 25.4)

/-- `si.rs`: `Length::from_foot(val) = Length { val: val * 304.8 / 1000.0 }`. -/
def Length.from_foot (val : F64) : Length := ⟨(val.mul (f64lit 304.8)).div (f64lit 1000)⟩

/-- `si.rs`: `Length::to_foot(&self) = self.val * 1000.0 / 304.8`. -/
def Length.to_foot (l : Length) : F64 := (l.val.mul (f64lit 1000)).div (f64lit 304.8)

/-- `si.rs`: `impl Add for Length` sums the canonical (meter) magnitudes. -/
def Length.add (a b : Length) : Length := ⟨a.val.add b.val⟩

/-- `si.rs`: `impl Div for Length` divides the canonical magnitudes. -/
def Length.div (a b : Length) : Length := ⟨a.val.div b.val⟩

/-- `si.rs`: `pub struct Weight { val: f64 }` (kilograms). -/
structure Weight where
  val : F64
deriving DecidableEq

/-- `si.rs`: `Weight::from_kilogram(val) = Weight { val }`. -/
def Weight.from_kilogram (val : F64) : Weight := ⟨val⟩

/-- `si.rs`: `Weight::to_kilogram(&self) = self.val`. -/
def Weight.to_kilogram (w : Weight) : F64 := w.val

/-- `si.rs`: `Weight::from_gram(val) = Weight { val: val / 1000.0 }`. -/
def Weight.from_gram (val : F64) : Weight := ⟨val.div (f64lit 1000)⟩

/-- `si.rs`: `Weight::to_gram(&self) = self.val * 1000.0`. -/
def Weight.to_gram (w : Weight) : F64 := w.val.mul (f64lit 1000)

/-- `si.rs`: `Weight::from_pound(val) = Weight { val: val / 2.20462 }`. -/
def Weight.from_pound (val : F64) : Weight := ⟨val.div (f64lit 2.20462)⟩

/-- `si.rs`: `Weight::to_pound(&self) = self.val * 2.20462`. -/
def Weight.to_pound (w : Weight) : F64 := w.val.mul (f64lit 2.20462)

/-- `si.rs`: `Weight::from_long_ton(val) = Weight { val: val * 1016.05 }`. -/
def Weight.from_long_ton (val : F64) : Weight := ⟨val.mul (f64lit 1016.05)⟩

/-- `si.rs`: `Weight::to_long_ton(&self) = self.val / 1016.05`. -/
def Weight.to_long_ton (w : Weight) : F64 := w.val.div (f64lit 1016.05)

/-- `si.rs`: `Weight::from_short_ton(val) = Weight { val: val * 907.185 }`. -/
def Weight.from_short_ton (val : F64) : Weight := ⟨val.mul (f64lit 907.185)⟩

/-- `si.rs`: `Weight::to_short_ton(&self) = self.val / 907.185`. -/
def Weight.to_short_ton (w : Weight) : F64 := w.val.div (f64lit 907.185)

/-- `si.rs`: `impl Add for Weight` sums the canonical magnitudes. -/
def Weight.add (a b : Weight) : Weight := ⟨a.val.add b.val⟩

/-- `si.rs`: `impl Div for Weight` divides the canonical magnitudes. -/
def Weight.div (a b : Weight) : Weight := ⟨a.val.div b.val⟩

/-- Modelled from the spec: the `Area` quantity type is imported by
`boat.rs` from `si` (`use super::si::{Area, Length, Weight}`) but its
definition is not among the provided sources.  Per spec §2/§3/§4.1, it is
an immutable value type storing a single `f64` magnitude in the canonical
unit (square meter), with `from_meter2`/`to_meter2` accessors mirroring
`Length`/`Weight`. -/
structure Area where
  val : F64
deriving DecidableEq

/-- Modelled from the spec: `Area::from_meter2(val) = Area { val }`
(square-meter canonical unit). -/
def Area.from_meter2 (val : F64) : Area := ⟨val⟩

/-- Modelled from the spec: `Area::to_meter2(&self) = self.val`. -/
def Area.to_meter2 (a : Area) : F64 := a.val

/-! Embedding of `src/boat.rs`: the `Boat` entity, the three ratio
calculators with their category enums, and the `Ratios` aggregate. -/

/-- `boat.rs`: `pub struct Boat` with a name and five quantity fields. -/
structure Boat where
  name : String
  loa : Length
  dwl : Length
  b_max : Length
  displacement : Weight
  sail_area : Area
deriving DecidableEq

/-- `boat.rs`: `Boat::new(name)` builds the default boat (LOA 4.0 m,
DWL 3.8 m, beam 1.2 m, displacement 80 kg, sail area 6 m²). -/
def Boat.new (name : String) : Boat :=
  { name := name
    loa := Length.from_meter (f64lit 4.0)
    dwl := Length.from_meter (f64lit 3.8)
    b_max := Length.from_meter (f64lit 1.2)
    displacement := Weight.from_kilogram (f64lit 80.0)
    sail_area := Area.from_meter2 (f64lit 6.0) }

/-- `boat.rs`: `Boat::set_loa`. -/
def Boat.set_loa (b : Boat) (val : Length) : Boat := { b with loa := val }

/-- `boat.rs`: `Boat::set_dwl`. -/
def Boat.set_dwl (b : Boat) (val : Length) : Boat := { b with dwl := val }

/-- `boat.rs`: `Boat::set_b_max`. -/
def Boat.set_b_max (b : Boat) (val : Length) : Boat := { b with b_max := val }

/-- `boat.rs`: `Boat::set_displacement`. -/
def Boat.set_displacement (b : Boat) (val : Weight) : Boat :=
  { b with displacement := val }

/-- `boat.rs`: `Boat::set_sail_area`. -/
def Boat.set_sail_area (b : Boat) (val : Area) : Boat :=
  { b with sail_area := val }

/-- `boat.rs`: `pub enum BeamCharacter`. -/
inductive BeamCharacter where
  | Narrow
  | ModerateNarrow
  | Moderate
  | ModerateBeamy
  | Beamy
deriving DecidableEq

/-- `boat.rs`: `pub struct LengthBeamRatio`. -/
structure LengthBeamRatio where
  value : F64
  beam_character : BeamCharacter
deriving DecidableEq

/-- `boat.rs`: `LengthBeamRatio::from_boat`: the value is
`boat.loa.to_meter() / boat.b_max.to_meter()` and the category is the
top-down first-match threshold chain of the source. -/
def LengthBeamRatio.from_boat (boat : Boat) : LengthBeamRatio :=
  let value := boat.loa.to_meter.div boat.b_max.to_meter
  { value := value
    beam_character :=
      if (f64lit 4.00).le value then .Narrow
      else if (f64lit 3.65).le value then .ModerateNarrow
      else if (f64lit 3.30).le value then .Moderate
      else if (f64lit 3.00).lt value then .ModerateBeamy
      else .Beamy }

/-- `boat.rs`: `pub enum DisplacementCharacter`. -/
inductive DisplacementCharacter where
  | Ultralight
  | Light
  | Moderate
  | Heavy
  | Ultraheavy
deriving DecidableEq

/-- `boat.rs`: `pub struct DisplacementLengthRatio`. -/
structure DisplacementLengthRatio where
  value : F64
  displacement_character : DisplacementCharacter
deriving DecidableEq

/-- `boat.rs`: `DisplacementLengthRatio::from_boat`: the value is
`boat.displacement.to_long_ton() / (boat.dwl.to_foot() * 0.01).powf(3.0)`
and the category is the top-down first-match threshold chain of the
source. -/
def DisplacementLengthRatio.from_boat (boat : Boat) : DisplacementLengthRatio :=
  let value := boat.displacement.to_long_ton.div
    ((boat.dwl.to_foot.mul (f64lit 0.01)).pow3)
  { value := value
    displacement_character :=
      if value.lt (f64lit 90.0) then .Ultralight
      else if value.lt (f64lit 180.0) then .Light
      else if value.lt (f64lit 270.0) then .Moderate
      else if value.le (f64lit 360.0) then .Heavy
      else .Ultraheavy }

/-- `boat.rs`: `pub enum SailAreaCharacter`. -/
inductive SailAreaCharacter where
  | Low
  | Moderate
  | High
deriving DecidableEq

/-- `boat.rs`: `pub struct SailAreaDisplacementRatio`. -/
structure SailAreaDisplacementRatio where
  value : F64
  sail_area_character : SailAreaCharacter
deriving DecidableEq

/-- `boat.rs`: `SailAreaDisplacementRatio::from_boat`: the value is
`boat.sail_area.to_meter2() / boat.displacement.to_long_ton().powf(2.0/3.0)`
and the category is the top-down first-match threshold chain of the
source. -/
def SailAreaDisplacementRatio.from_boat (boat : Boat) : SailAreaDisplacementRatio :=
  let value := boat.sail_area.to_meter2.div (boat.displacement.to_long_ton.pow23)
  { value := value
    sail_area_character :=
      if value.lt (f64lit 15.0) then .Low
      else if value.le (f64lit 20.0) then .Moderate
      else .High }

/-- `boat.rs`: `pub struct Ratios`. -/
structure Ratios where
  length_beam_ratio : LengthBeamRatio
  displacement_lenght_ratio : DisplacementLengthRatio
  sail_area_displacement : SailAreaDisplacementRatio
deriving DecidableEq

/-- `boat.rs`: `Ratios::new(&boat)` computes all three ratio results from
one boat snapshot. -/
def Ratios.new (boat : Boat) : Ratios :=
  { length_beam_ratio := LengthBeamRatio.from_boat boat
    displacement_lenght_ratio := DisplacementLengthRatio.from_boat boat
    sail_area_displacement := SailAreaDisplacementRatio.from_boat boat }

/-! Spec-side category tables (transcribed from the spec's words, for the
refinement statements): L/B §4.3, D/L 5-band preset §4.4, SA/D §4.5. -/

/-- Spec §4.3 L/B table, top-down first match: `value ≥ 4.00` Narrow,
`value ≥ 3.65` ModerateNarrow, `value ≥ 3.30` Moderate, `value > 3.00`
ModerateBeamy, otherwise Beamy. -/
def specBeamCategory (v : F64) : BeamCharacter :=
  if (f64lit 4.00).le v then .Narrow
  else if (f64lit 3.65).le v then .ModerateNarrow
  else if (f64lit 3.30).le v then .Moderate
  else if (f64lit 3.00).lt v then .ModerateBeamy
  else .Beamy

/-- Spec §4.4 D/L 5-band preset, top-down first match: `< 90` Ultralight,
`< 180` Light, `< 270` Moderate, `≤ 360` Heavy, else Ultraheavy. -/
def specDisplacementCategory (v : F64) : DisplacementCharacter :=
  if v.lt (f64lit 90.0) then .Ultralight
  else if v.lt (f64lit 180.0) then .Light
  else if v.lt (f64lit 270.0) then .Moderate
  else if v.le (f64lit 360.0) then .Heavy
  else .Ultraheavy

/-- Spec §4.5 SA/D table as worded by the claim: Low when `value < 15.0`,
Moderate when `15.0 ≤ value ≤ 20.0`, High otherwise. -/
def specSailAreaCategory (v : F64) : SailAreaCharacter :=
  if v.lt (f64lit 15.0) then .Low
  else if (f64lit 15.0).le v && v.le (f64lit 20.0) then .Moderate
  else .High

/-! Ideal (exact rational) semantics of the `si.rs` conversions, with the
conversion-factor constants read off the source.  These state the unit
round-trip and additivity properties "within floating-point tolerance":
in exact arithmetic the round trips are exact. -/

/-- Exact semantics of `Length::from_meter`. -/
def fromMeterQ (x : ℚ) : ℚ := x

/-- Exact semantics of `Length::to_meter`. -/
def toMeterQ (v : ℚ) : ℚ := v

/-- Exact semantics of `Length::from_millimeter`. -/
def fromMillimeterQ (x : ℚ) : ℚ := x / 1000

/-- Exact semantics of `Length::to_millimiter`. -/
def toMillimiterQ (v : ℚ) : ℚ := v * 1000

/-- Exact semantics of `Length::from_inch`. -/
def fromInchQ (x : ℚ) : ℚ := x * 25.4 / 1000

/-- Exact semantics of `Length::to_inch`. -/
def toInchQ (v : ℚ) : ℚ := v * 1000 / 25.4

/-- Exact semantics of `Length::from_foot`. -/
def fromFootQ (x : ℚ) : ℚ := x * 304.8 / 1000

/-- Exact semantics of `Length::to_foot`. -/
def toFootQ (v : ℚ) : ℚ := v * 1000 / 304.8

/-- Exact semantics of `Weight::from_kilogram`. -/
def fromKilogramQ (x : ℚ) : ℚ := x

/-- Exact semantics of `Weight::to_kilogram`. -/
def toKilogramQ (v : ℚ) : ℚ := v

/-- Exact semantics of `Weight::from_gram`. -/
def fromGramQ (x : ℚ) : ℚ := x / 1000

/-- Exact semantics of `Weight::to_gram`. -/
def toGramQ (v : ℚ) : ℚ := v * 1000

/-- Exact semantics of `Weight::from_pound`. -/
def fromPoundQ (x : ℚ) : ℚ := x / 2.20462

/-- Exact semantics of `Weight::to_pound`. -/
def toPoundQ (v : ℚ) : ℚ := v * 2.20462

/-- Exact semantics of `Weight::from_long_ton`. -/
def fromLongTonQ (x : ℚ) : ℚ := x * 1016.05

/-- Exact semantics of `Weight::to_long_ton`. -/
def toLongTonQ (v : ℚ) : ℚ := v / 1016.05

/-- Exact semantics of `Weight::from_short_ton`. -/
def fromShortTonQ (x : ℚ) : ℚ := x * 907.185

/-- Exact semantics of `Weight::to_short_ton`. -/
def toShortTonQ (v : ℚ) : ℚ := v / 907.185

/-! Concrete boats used as witnesses. -/

/-- A boat with a 1 ft beam and an adjustable LOA in feet (the
configuration of the `beam_character` unit test). -/
def oneFootBeamBoat (x : Q) : Boat :=
  ((Boat.new "").set_b_max (Length.from_foot (f64lit 1.00))).set_loa
    (Length.from_foot (f64lit x))

/-- The numeric D/L scenario of the `displacement_length_ratio` unit test:
LOA 34 ft, DWL 32 ft, beam 1 ft, displacement 15680 lb. -/
def perryExampleBoat : Boat :=
  ((((Boat.new "").set_loa (Length.from_foot (f64lit 34.0))).set_dwl
      (Length.from_foot (f64lit 32.0))).set_b_max
      (Length.from_foot (f64lit 1.0))).set_displacement
    (Weight.from_pound (f64lit 15680.0))

/-- A boat with a 1 m beam and an adjustable LOA in meters. -/
def meterBeamBoat (x : Q) : Boat :=
  ((Boat.new "").set_b_max (Length.from_meter (f64lit 1))).set_loa
    (Length.from_meter (f64lit x))

/-- A boat whose LOA is exactly 3 m over a 1 m beam (ratio exactly 3.00). -/
def exactThreeBoat : Boat :=
  ((Boat.new "").set_b_max (Length.from_meter (F64.fin 1))).set_loa
    (Length.from_meter (F64.fin 3))

/-- A boat with a 10 ft DWL and an adjustable displacement in long tons. -/
def tenFootDwlBoat (t : Q) : Boat :=
  ((Boat.new "").set_dwl (Length.from_foot (f64lit 10))).set_displacement
    (Weight.from_long_ton (f64lit t))

/-- A boat displacing one long ton with an adjustable sail area in m². -/
def oneTonBoat (s : Q) : Boat :=
  ((Boat.new "").set_displacement (Weight.from_long_ton (f64lit 1))).set_sail_area
    (Area.from_meter2 (f64lit s))

/-- A boat with zero beam and an adjustable (finite) LOA in meters. -/
def zeroBeamBoat (q : Q) : Boat :=
  ((Boat.new "").set_b_max (Length.from_meter (F64.fin 0))).set_loa
    (Length.from_meter (F64.fin q))

/-- Zero LOA over zero beam: the L/B division is `0.0 / 0.0`. -/
def nanBeamBoat : Boat :=
  ((Boat.new "").set_b_max (Length.from_meter (F64.fin 0))).set_loa
    (Length.from_meter (F64.fin 0))

/-- Zero displacement and zero DWL: the D/L division is `0.0 / 0.0`. -/
def nanDisplacementBoat : Boat :=
  ((Boat.new "").set_dwl (Length.from_meter (F64.fin 0))).set_displacement
    (Weight.from_kilogram (F64.fin 0))

/-- Zero sail area and zero displacement: the SA/D division is `0.0 / 0.0`. -/
def nanSailBoat : Boat :=
  ((Boat.new "").set_displacement (Weight.from_kilogram (F64.fin 0))).set_sail_area
    (Area.from_meter2 (F64.fin 0))

set_option maxRecDepth 20000

/-- The L/B category computed by `LengthBeamRatio::from_boat` is exactly
the spec table applied to the computed value (both are the same top-down
first-match chain). -/
lemma beamCharacter_eq_spec (b : Boat) :
    (LengthBeamRatio.from_boat b).beam_character
      = specBeamCategory (LengthBeamRatio.from_boat b).value := rfl

/-- The D/L category computed by `DisplacementLengthRatio::from_boat` is
exactly the spec 5-band table applied to the computed value. -/
lemma dispCharacter_eq_spec (b : Boat) :
    (DisplacementLengthRatio.from_boat b).displacement_character
      = specDisplacementCategory (DisplacementLengthRatio.from_boat b).value := rfl

/-- The source's SA/D chain (`< 15` Low, else `≤ 20` Moderate, else High)
agrees with the spec's wording (`15 ≤ v ≤ 20` Moderate) on every double,
NaN and infinities included. -/
lemma sailChain_eq_spec (v : F64) :
    (if v.lt (f64lit 15.0) then SailAreaCharacter.Low
     else if v.le (f64lit 20.0) then SailAreaCharacter.Moderate
     else SailAreaCharacter.High) = specSailAreaCategory v := by
  have e15 : f64lit 15.0 = F64.fin ⟨15, 1⟩ := by decide
  have e20 : f64lit 20.0 = F64.fin ⟨20, 1⟩ := by decide
  match v with
  | .nan => rfl
  | .inf s => cases s <;> rfl
  | .fin q =>
    rw [specSailAreaCategory, e15, e20]
    simp only [F64.lt, F64.le, Q.lt, Q.le, Bool.and_eq_true, decide_eq_true_eq]
    split_ifs <;> first | rfl | (exfalso; omega)

/-- The SA/D category computed by `SailAreaDisplacementRatio::from_boat`
is the spec table applied to the computed value. -/
lemma sailCharacter_eq_spec (b : Boat) :
    (SailAreaDisplacementRatio.from_boat b).sail_area_character
      = specSailAreaCategory (SailAreaDisplacementRatio.from_boat b).value :=
  sailChain_eq_spec _

/-- C1: for every Boat, the L/B value equals `loa.to_meter() /
b_max.to_meter()`, the category is the spec's top-down first-match
threshold table applied to that value, and a value exactly equal to 3.00
classifies as Beamy (the ModerateBeamy boundary is strict). -/
theorem lengthBeamRatio_spec (b : Boat) :
    (LengthBeamRatio.from_boat b).value = b.loa.to_meter.div b.b_max.to_meter
    ∧ (LengthBeamRatio.from_boat b).beam_character
        = specBeamCategory (LengthBeamRatio.from_boat b).value
    ∧ ((LengthBeamRatio.from_boat b).value = F64.fin 3 →
        (LengthBeamRatio.from_boat b).beam_character = BeamCharacter.Beamy) :=
  ⟨rfl, beamCharacter_eq_spec b, fun h => by
    rw [beamCharacter_eq_spec b, h]; decide⟩

/-- Witness for C1 at a concrete boat whose L/B value is exactly 3
(LOA 3 m over beam 1 m): the category is Beamy. -/
theorem lengthBeamRatio_spec_witness :
    (LengthBeamRatio.from_boat exactThreeBoat).beam_character = BeamCharacter.Beamy :=
  (lengthBeamRatio_spec exactThreeBoat).2.2 (by decide)

/-- C2: for every Boat, the D/L value equals
`displacement.to_long_ton() / (dwl.to_foot() * 0.01)^3` and the category
is the spec's 5-band preset applied to that value. -/
theorem displacementLengthRatio_spec (b : Boat) :
    (DisplacementLengthRatio.from_boat b).value
      = b.displacement.to_long_ton.div ((b.dwl.to_foot.mul (f64lit 0.01)).pow3)
    ∧ (DisplacementLengthRatio.from_boat b).displacement_character
        = specDisplacementCategory (DisplacementLengthRatio.from_boat b).value :=
  ⟨rfl, dispCharacter_eq_spec b⟩

/-- C3: for every Boat, the SA/D value equals
`sail_area.to_meter2() / displacement.to_long_ton()^(2/3)` and the
category is Low below 15, Moderate on `[15, 20]`, High otherwise. -/
theorem sailAreaDisplacementRatio_spec (b : Boat) :
    (SailAreaDisplacementRatio.from_boat b).value
      = b.sail_area.to_meter2.div (b.displacement.to_long_ton.pow23)
    ∧ (SailAreaDisplacementRatio.from_boat b).sail_area_character
        = specSailAreaCategory (SailAreaDisplacementRatio.from_boat b).value :=
  ⟨rfl, sailCharacter_eq_spec b⟩

/-- C4: with a 1 ft beam, the computed `f64` L/B categories at the claimed
LOA boundary inputs are exactly Beamy (3.00), ModerateBeamy (3.01),
Moderate (3.30), Moderate (3.65, since the accumulated `f64` rounding of
`3.65 ft / 1 ft` lands just below the literal `3.65`), ModerateNarrow
(3.66) and Narrow (4.00). -/
theorem lengthBeamRatio_boundaries :
    (LengthBeamRatio.from_boat (oneFootBeamBoat 3.00)).beam_character = BeamCharacter.Beamy
    ∧ (LengthBeamRatio.from_boat (oneFootBeamBoat 3.01)).beam_character = BeamCharacter.ModerateBeamy
    ∧ (LengthBeamRatio.from_boat (oneFootBeamBoat 3.30)).beam_character = BeamCharacter.Moderate
    ∧ (LengthBeamRatio.from_boat (oneFootBeamBoat 3.65)).beam_character = BeamCharacter.Moderate
    ∧ (LengthBeamRatio.from_boat (oneFootBeamBoat 3.66)).beam_character = BeamCharacter.ModerateNarrow
    ∧ (LengthBeamRatio.from_boat (oneFootBeamBoat 4.00)).beam_character = BeamCharacter.Narrow := by
  refine ⟨?_, ?_, ?_, ?_, ?_, ?_⟩ <;> decide

/-- C5: for the test scenario (DWL 32 ft, displacement 15680 lb), the D/L
value rounds (half away from zero, as `f64::round`) to 214. -/
theorem displacementLengthRatio_perry_example :
    (DisplacementLengthRatio.from_boat perryExampleBoat).value.round = F64.fin 214 := by
  decide

/-- C6: every unit conversion round-trips exactly in ideal (exact
rational) arithmetic — the "within floating-point tolerance" reading —
and the two quoted `f64` equalities hold exactly in double precision:
`Length::from_foot(1.0).to_meter() == 0.3048` and
`Weight::from_long_ton(1.0).to_kilogram() == 1016.05`. -/
theorem unit_conversion_roundtrip :
    (∀ x : ℚ, toMeterQ (fromMeterQ x) = x)
    ∧ (∀ x : ℚ, toMillimiterQ (fromMillimeterQ x) = x)
    ∧ (∀ x : ℚ, toInchQ (fromInchQ x) = x)
    ∧ (∀ x : ℚ, toFootQ (fromFootQ x) = x)
    ∧ (∀ x : ℚ, toKilogramQ (fromKilogramQ x) = x)
    ∧ (∀ x : ℚ, toGramQ (fromGramQ x) = x)
    ∧ (∀ x : ℚ, toPoundQ (fromPoundQ x) = x)
    ∧ (∀ x : ℚ, toLongTonQ (fromLongTonQ x) = x)
    ∧ (∀ x : ℚ, toShortTonQ (fromShortTonQ x) = x)
    ∧ (Length.from_foot (f64lit 1.0)).to_meter = f64lit 0.3048
    ∧ (Weight.from_long_ton (f64lit 1.0)).to_kilogram = f64lit 1016.05 := by
  refine ⟨?_, ?_, ?_, ?_, ?_, ?_, ?_, ?_, ?_, by decide, by decide⟩ <;> intro x <;>
    simp [toMeterQ, fromMeterQ, toMillimiterQ, fromMillimeterQ, toInchQ, fromInchQ,
      toFootQ, fromFootQ, toKilogramQ, fromKilogramQ, toGramQ, fromGramQ,
      toPoundQ, fromPoundQ, toLongTonQ, fromLongTonQ, toShortTonQ, fromShortTonQ] <;>
    field_simp

/-- C7: in ideal arithmetic, conversion to millimeters distributes over
Length addition and the exact factors are 1 ft = 304.8 mm and
1 in = 25.4 mm; and in double precision
`(Length::from_foot(15.0) + Length::from_inch(4.0)).to_millimiter()`
equals the `f64` sum `4572.0 + 101.6` exactly. -/
theorem length_addition_millimeter :
    (∀ a b : ℚ, toMillimiterQ (a + b) = toMillimiterQ a + toMillimiterQ b)
    ∧ toMillimiterQ (fromFootQ 1) = 304.8
    ∧ toMillimiterQ (fromInchQ 1) = 25.4
    ∧ ((Length.from_foot (f64lit 15.0)).add (Length.from_inch (f64lit 4.0))).to_millimiter
        = (f64lit 4572.0).add (f64lit 101.6) := by
  refine ⟨fun a b => ?_, by norm_num [toMillimiterQ, fromFootQ],
    by norm_num [toMillimiterQ, fromInchQ], by decide⟩
  simp [toMillimiterQ]; ring

/-- C8: no category is unreachable — every variant of each of the three
category enums is produced by its classifier for some Boat. -/
theorem all_categories_reachable :
    (∃ b : Boat, (LengthBeamRatio.from_boat b).beam_character = BeamCharacter.Narrow)
    ∧ (∃ b : Boat, (LengthBeamRatio.from_boat b).beam_character = BeamCharacter.ModerateNarrow)
    ∧ (∃ b : Boat, (LengthBeamRatio.from_boat b).beam_character = BeamCharacter.Moderate)
    ∧ (∃ b : Boat, (LengthBeamRatio.from_boat b).beam_character = BeamCharacter.ModerateBeamy)
    ∧ (∃ b : Boat, (LengthBeamRatio.from_boat b).beam_character = BeamCharacter.Beamy)
    ∧ (∃ b : Boat, (DisplacementLengthRatio.from_boat b).displacement_character
        = DisplacementCharacter.Ultralight)
    ∧ (∃ b : Boat, (DisplacementLengthRatio.from_boat b).displacement_character
        = DisplacementCharacter.Light)
    ∧ (∃ b : Boat, (DisplacementLengthRatio.from_boat b).displacement_character
        = DisplacementCharacter.Moderate)
    ∧ (∃ b : Boat, (DisplacementLengthRatio.from_boat b).displacement_character
        = DisplacementCharacter.Heavy)
    ∧ (∃ b : Boat, (DisplacementLengthRatio.from_boat b).displacement_character
        = DisplacementCharacter.Ultraheavy)
    ∧ (∃ b : Boat, (SailAreaDisplacementRatio.from_boat b).sail_area_character
        = SailAreaCharacter.Low)
    ∧ (∃ b : Boat, (SailAreaDisplacementRatio.from_boat b).sail_area_character
        = SailAreaCharacter.Moderate)
    ∧ (∃ b : Boat, (SailAreaDisplacementRatio.from_boat b).sail_area_character
        = SailAreaCharacter.High) :=
  ⟨⟨meterBeamBoat 5, by decide⟩, ⟨meterBeamBoat 3.7, by decide⟩,
    ⟨meterBeamBoat 3.5, by decide⟩, ⟨meterBeamBoat 3.1, by decide⟩,
    ⟨meterBeamBoat 2, by decide⟩,
    ⟨tenFootDwlBoat 0.05, by decide⟩, ⟨tenFootDwlBoat 0.1, by decide⟩,
    ⟨tenFootDwlBoat 0.2, by decide⟩, ⟨tenFootDwlBoat 0.3, by decide⟩,
    ⟨tenFootDwlBoat 0.5, by decide⟩,
    ⟨oneTonBoat 10, by decide⟩, ⟨oneTonBoat 18, by decide⟩,
    ⟨oneTonBoat 25, by decide⟩⟩

/-- C9: `Ratios::new` is pure — it reads only the dimension fields of the
borrowed Boat (in particular its result does not depend on the name), and
two evaluations on the same unmutated Boat are identical.  In this
embedding a Boat is passed by value, which is faithful because the Rust
function takes `&Boat` (an immutable borrow) and `Boat` has no interior
mutability, so no field can be modified. -/
theorem ratios_new_pure (n1 n2 : String) (loa dwl bmax : Length)
    (disp : Weight) (sa : Area) :
    Ratios.new ⟨n1, loa, dwl, bmax, disp, sa⟩ = Ratios.new ⟨n2, loa, dwl, bmax, disp, sa⟩
    ∧ Ratios.new ⟨n1, loa, dwl, bmax, disp, sa⟩
        = Ratios.new ⟨n1, loa, dwl, bmax, disp, sa⟩ :=
  ⟨rfl, rfl⟩

/-- C10: ratio construction is total on degenerate inputs.  Any positive
finite LOA over a zero beam gives value +∞ and category Narrow, and the
`0.0 / 0.0` boats give value NaN, which falls through every threshold
comparison to the final else branch: Beamy for L/B, Ultraheavy for D/L,
High for SA/D. -/
theorem degenerate_inputs_total :
    (∀ q : Q, 0 < q.num → 0 < q.den →
      (LengthBeamRatio.from_boat (zeroBeamBoat q)).value = F64.inf false
      ∧ (LengthBeamRatio.from_boat (zeroBeamBoat q)).beam_character = BeamCharacter.Narrow)
    ∧ ((LengthBeamRatio.from_boat nanBeamBoat).value = F64.nan
      ∧ (LengthBeamRatio.from_boat nanBeamBoat).beam_character = BeamCharacter.Beamy)
    ∧ ((DisplacementLengthRatio.from_boat nanDisplacementBoat).value = F64.nan
      ∧ (DisplacementLengthRatio.from_boat nanDisplacementBoat).displacement_character
          = DisplacementCharacter.Ultraheavy)
    ∧ ((SailAreaDisplacementRatio.from_boat nanSailBoat).value = F64.nan
      ∧ (SailAreaDisplacementRatio.from_boat nanSailBoat).sail_area_character
          = SailAreaCharacter.High) := by
  refine ⟨fun q h1 h2 => ?_, by decide, by decide, by decide⟩
  have hv : (LengthBeamRatio.from_boat (zeroBeamBoat q)).value = F64.inf false := by
    show F64.div (F64.fin q) (F64.fin 0) = F64.inf false
    simp only [F64.div]
    rw [if_pos (show (0 : Q).num = 0 from rfl), if_neg (ne_of_gt h1),
      decide_eq_false (not_lt.mpr (le_of_lt h1))]
  exact ⟨hv, by rw [beamCharacter_eq_spec, hv]; decide⟩

/-- Witness for C10 at LOA = 4 m (numerator 4, denominator 1): the L/B
value over a zero beam is +∞ and the category is Narrow. -/
theorem degenerate_inputs_total_witness :
    (0 : ℤ) < (⟨4, 1⟩ : Q).num ∧ (0 : ℤ) < (⟨4, 1⟩ : Q).den
    ∧ ((LengthBeamRatio.from_boat (zeroBeamBoat ⟨4, 1⟩)).value = F64.inf false
      ∧ (LengthBeamRatio.from_boat (zeroBeamBoat ⟨4, 1⟩)).beam_character
          = BeamCharacter.Narrow) :=
  ⟨by decide, by decide, degenerate_inputs_total.1 ⟨4, 1⟩ (by decide) (by decide)⟩

end BoatPlan
